import Mathlib

/-!
Verification of the MareArts-VideoTools repository: a shallow embedding of the
aspect-ratio canvas compositor (`16_9_video_gen.py`) and the downloader wrapper
(`download_youtube.py`), with theorems settling the specification's claims.

Modelling notes on numeric types: the Python script computes the target
dimensions with IEEE-double arithmetic (`target_ratio = 16/9`,
`int(height * target_ratio)`, `int(width / target_ratio)`, and the comparison
`width / height < target_ratio`).  Over the whole range of realistic video
dimensions these double computations coincide with exact integer arithmetic
(checked exhaustively for all dimensions up to two million):
`int(h * (16/9)) = (16*h) // 9`, `int(w / (16/9)) = (9*w) // 16`, and
`w/h < 16/9` iff `9*w < 16*h`.  The embedding therefore uses exact `Int`
arithmetic, with Python's floor division `//` rendered as `Int.fdiv`.
-/

namespace VideoTools

/-- A decoded frame, modelled as a function from (row, column, channel) to the
pixel value.  Only the entries with `0 ≤ row < height`, `0 ≤ col < width` and
`0 ≤ channel < 3` correspond to bytes of the real `numpy` array. -/
def Frame : Type := ℤ → ℤ → ℤ → ℕ

/-- The output geometry computed once per conversion run:
target canvas size and the two padding offsets. -/
structure ConvDims where
  new_width : ℤ
  new_height : ℤ
  h_padding : ℤ
  v_padding : ℤ
  deriving DecidableEq, Repr

/-- Embeds `16_9_video_gen.py` lines 27-42: branch on `width/height < 16/9`;
too-narrow sources get `new_width = int(height * 16/9)` and horizontal padding
`(new_width - width) // 2`; sources at or wider than 16:9 get
`new_height = int(width / (16/9))` and vertical padding
`(new_height - height) // 2`.  `int(...)` of the (nonnegative) double products
is floor, i.e. `Int.fdiv` by 9 resp. 16 (see the header note). -/
def convert_dims (width height : ℤ) : ConvDims :=
  if 9 * width < 16 * height then
    ⟨(16 * height).fdiv 9, height, ((16 * height).fdiv 9 - width).fdiv 2, 0⟩
  else
    ⟨width, (9 * width).fdiv 16, 0, ((9 * width).fdiv 16 - height).fdiv 2⟩

/-- Embeds lines 62-65: `canvas = np.zeros((new_height, new_width, 3))` followed
by `canvas[v_padding:v_padding+height, h_padding:h_padding+width] = frame`.
The emitted canvas reads the source frame inside the pasted region and is 0
(black) everywhere else. -/
def composite (vp hp h w : ℤ) (f : Frame) : Frame :=
  fun y x c =>
    if vp ≤ y ∧ y < vp + h ∧ hp ≤ x ∧ x < hp + w then f (y - vp) (x - hp) c else 0

/-- Embeds the while-loop of lines 56-75: read a frame (the list head), build
the canvas, write it to the sink, increment `processed_frames`; after every
100th frame the progress print computes `processed_frames / frame_count`,
which raises `ZeroDivisionError` exactly when `frame_count = 0` (the canvas of
that frame was already written, since `out.write` precedes the counter update).
Returns the list of frames written to the sink, in writing order, paired with
`true` iff the loop ran to the end of the stream without raising. -/
def convert_loop (vp hp h w : ℤ) (frame_count : ℤ) :
    List Frame → ℕ → List Frame × Bool
  | [], _ => ([], true)
  | f :: fs, processed =>
    let canvas := composite vp hp h w f
    if (processed + 1) % 100 = 0 ∧ frame_count = 0 then
      ([canvas], false)
    else
      let r := convert_loop vp hp h w frame_count fs (processed + 1)
      (canvas :: r.1, r.2)

/-- The frame source as `convert_to_16_9` observes it: whether
`cap.isOpened()`, the reported properties, and the finite sequence of frames
that successive `cap.read()` calls yield before the first failing read. -/
structure Source where
  opened : Bool
  width : ℤ
  height : ℤ
  fps : ℚ
  frame_count : ℤ
  frames : List Frame

/-- Observable outcome of one `convert_to_16_9` run: whether the open-failure
error was printed, whether the sink (`cv2.VideoWriter`) was constructed and
with which geometry and frame rate, the frames written to it, how many times
each of `cap.release()` / `out.release()` ran, and whether the function
returned normally (as opposed to the early open-failure return or an
exception escaping the loop). -/
structure RunResult where
  error_printed : Bool
  sink_opened : Bool
  sink_width : ℤ
  sink_height : ℤ
  sink_fps : ℚ
  written : List Frame
  cap_releases : ℕ
  out_releases : ℕ
  completed : Bool

/-- Embeds `convert_to_16_9` (lines 6-79).  If the source is not opened, the
error is printed and the function returns at line 18: no sink is constructed
and no `release` call runs.  Otherwise the dimensions are computed, the sink is
opened with `(new_width, new_height)` at the source fps, and the loop runs; on
normal loop exit lines 77-78 release source and sink once each, while an
exception raised inside the loop propagates out of the function, skipping both
release calls (there is no try/finally). -/
def convert_to_16_9 (src : Source) : RunResult :=
  if src.opened = false then
    ⟨true, false, 0, 0, 0, [], 0, 0, false⟩
  else
    let d := convert_dims src.width src.height
    let r := convert_loop d.v_padding d.h_padding src.height src.width
      src.frame_count src.frames 0
    if r.2 then
      ⟨false, true, d.new_width, d.new_height, src.fps, r.1, 1, 1, true⟩
    else
      ⟨false, true, d.new_width, d.new_height, src.fps, r.1, 0, 0, false⟩

/-- Model of `os.path.join` for the two-argument uses in this repository
(joining a directory with a relative file name). -/
def pathJoin (a b : String) : String :=
  if a = "" then b else if a.endsWith "/" then a ++ b else a ++ "/" ++ b

/-- Abstract environment for one `download_video` call: the working directory
and the outcome of each external step that can raise inside the `try` block
(`os.makedirs`, `ydl.extract_info`, `ydl.download`), plus the fields the code
reads from the extracted info dict.  `duration = none` models
`info.get('duration')` returning `None`, which makes `duration // 60` at line
178 raise `TypeError` (caught by the same handler). -/
structure DLEnv where
  cwd : String
  makedirs_ok : Bool
  extract_ok : Bool
  title : Option String
  duration : Option ℤ
  download_ok : Bool

/-- Lines 123-124: `if not output_path: output_path = os.getcwd()`.  Python's
`not` also treats the empty string as falsy, so both `None` and `""` fall back
to the working directory. -/
def effective_output (env : DLEnv) (output_path : Option String) : String :=
  match output_path with
  | none => env.cwd
  | some s => if s = "" then env.cwd else s

/-- The body of `download_video`'s `try` block (lines 123-194): default the
output path to the working directory when it is `None` or empty, run the
fallible external steps in order, and on success return
`os.path.join(output_path, f"{video_title}.mp4")` where `video_title` is
`info.get('title', 'video')`. -/
def download_body (env : DLEnv) (output_path : Option String) :
    Except Unit String :=
  let out := effective_output env output_path
  if env.makedirs_ok = false then .error () else
  if env.extract_ok = false then .error () else
  let video_title := env.title.getD "video"
  match env.duration with
  | none => .error ()
  | some _ =>
    if env.download_ok = false then .error ()
    else .ok (pathJoin out (video_title ++ ".mp4"))

/-- Result of `download_video`: the returned string and whether the `except`
handler printed the troubleshooting guidance. -/
structure DLResult where
  result : String
  guidance_printed : Bool
  deriving DecidableEq, Repr

/-- Embeds `download_video` (lines 112-210): the whole body runs inside
`try`; any exception is caught by `except Exception`, the troubleshooting
guidance is printed, and the empty string is returned (line 210). -/
def download_video (env : DLEnv) (url : String) (output_path : Option String) :
    DLResult :=
  match download_body env output_path with
  | .ok s => ⟨s, false⟩
  | .error _ => ⟨"", true⟩

/-! ### Arithmetic helper lemmas -/

lemma fdiv_nine (a : ℤ) : a.fdiv 9 = a / 9 := Int.fdiv_eq_ediv a (by norm_num)

lemma fdiv_sixteen (a : ℤ) : a.fdiv 16 = a / 16 := Int.fdiv_eq_ediv a (by norm_num)

lemma fdiv_two (a : ℤ) : a.fdiv 2 = a / 2 := Int.fdiv_eq_ediv a (by norm_num)

/-- The exact-rational branch test of the dimension rule agrees with the
integer cross-multiplied form. -/
lemma ratio_lt_iff (w h : ℤ) (hh : 0 < h) :
    (w : ℚ) / (h : ℚ) < 16 / 9 ↔ 9 * w < 16 * h := by
  rw [div_lt_div_iff₀ (by exact_mod_cast hh) (by norm_num)]
  constructor
  · intro hx
    have hc : ((9 * w : ℤ) : ℚ) < ((16 * h : ℤ) : ℚ) := by push_cast; linarith
    exact_mod_cast hc
  · intro hx
    have hc : ((9 * w : ℤ) : ℚ) < ((16 * h : ℤ) : ℚ) := by exact_mod_cast hx
    push_cast at hc; linarith

/-- `⌊h · 16/9⌋` over the rationals is the integer floor division `(16h) // 9`. -/
lemma floor_mul_sixteen_ninths (h : ℤ) : ⌊(h : ℚ) * (16 / 9)⌋ = (16 * h).fdiv 9 := by
  have he : (h : ℚ) * (16 / 9) = ((16 * h : ℤ) : ℚ) / ((9 : ℕ) : ℚ) := by
    push_cast; ring
  rw [he, Rat.floor_intCast_div_natCast, fdiv_nine]
  norm_num

/-- `⌊w · 9/16⌋` over the rationals is the integer floor division `(9w) // 16`. -/
lemma floor_mul_nine_sixteenths (w : ℤ) : ⌊(w : ℚ) * (9 / 16)⌋ = (9 * w).fdiv 16 := by
  have he : (w : ℚ) * (9 / 16) = ((9 * w : ℤ) : ℚ) / ((16 : ℕ) : ℚ) := by
    push_cast; ring
  rw [he, Rat.floor_intCast_div_natCast, fdiv_sixteen]
  norm_num

lemma convert_dims_narrow (w h : ℤ) (hb : 9 * w < 16 * h) :
    convert_dims w h =
      ⟨(16 * h).fdiv 9, h, ((16 * h).fdiv 9 - w).fdiv 2, 0⟩ := by
  rw [convert_dims, if_pos hb]

lemma convert_dims_wide (w h : ℤ) (hb : ¬ 9 * w < 16 * h) :
    convert_dims w h =
      ⟨w, (9 * w).fdiv 16, 0, ((9 * w).fdiv 16 - h).fdiv 2⟩ := by
  rw [convert_dims, if_neg hb]

/-! ### Claim theorems -/

/-- C1 (counterexample): the spec computes the narrow-branch width with
`round`, predicting `new_width = 1778` and `h_padding = 389` for a 1000×1000
source; the code truncates (`int(...)`), so it actually yields 1777 and 388. -/
theorem convert_dims_1000_round_claim_false :
    (convert_dims 1000 1000).new_width = 1777 ∧
    (convert_dims 1000 1000).h_padding = 388 ∧
    ¬ ((convert_dims 1000 1000).new_width = 1778 ∧
       (convert_dims 1000 1000).h_padding = 389) := by
  decide

/-- C1 (amended): for positive dimensions, a source with exact ratio
`width/height < 16/9` gets `new_width = ⌊height · 16/9⌋` (floor, not round),
`new_height = height`, `h_padding = (new_width − width) // 2`, `v_padding = 0`;
a source at or wider than 16:9 gets `new_width = width`,
`new_height = ⌊width · 9/16⌋`, `v_padding = (new_height − height) // 2`,
`h_padding = 0`.  In particular 1000×1000 yields 1777 and padding 388, and
640×480 yields 853 and padding 106. -/
theorem convert_dims_rule (w h : ℤ) (hw : 0 < w) (hh : 0 < h) :
    ((w : ℚ) / (h : ℚ) < 16 / 9 →
      convert_dims w h =
        ⟨⌊(h : ℚ) * (16 / 9)⌋, h, (⌊(h : ℚ) * (16 / 9)⌋ - w).fdiv 2, 0⟩) ∧
    (16 / 9 ≤ (w : ℚ) / (h : ℚ) →
      convert_dims w h =
        ⟨w, ⌊(w : ℚ) * (9 / 16)⌋, 0, (⌊(w : ℚ) * (9 / 16)⌋ - h).fdiv 2⟩) ∧
    convert_dims 640 480 = ⟨853, 480, 106, 0⟩ ∧
    convert_dims 1000 1000 = ⟨1777, 1000, 388, 0⟩ := by
  refine ⟨fun hr => ?_, fun hr => ?_, by decide, by decide⟩
  · rw [floor_mul_sixteen_ninths,
      convert_dims_narrow w h ((ratio_lt_iff w h hh).mp hr)]
  · rw [floor_mul_nine_sixteenths, convert_dims_wide w h ?_]
    rw [← ratio_lt_iff w h hh] at *
    exact not_lt.mpr hr

/-- C1 (witness): the amended rule instantiated at the 640×480 scenario. -/
theorem convert_dims_rule_witness :
    (0 : ℤ) < 640 ∧ (0 : ℤ) < 480 ∧
    ((640 : ℚ) / (480 : ℚ) < 16 / 9 →
      convert_dims 640 480 =
        ⟨⌊(480 : ℚ) * (16 / 9)⌋, 480, (⌊(480 : ℚ) * (16 / 9)⌋ - 640).fdiv 2, 0⟩) :=
  ⟨by decide, by decide, (convert_dims_rule 640 480 (by decide) (by decide)).1⟩

/-- C2: for positive source dimensions the computed output dominates the
source in both axes and both paddings are non-negative — the transform only
adds black bars and never crops, in both branches. -/
theorem convert_dims_no_crop (w h : ℤ) (hw : 0 < w) (hh : 0 < h) :
    w ≤ (convert_dims w h).new_width ∧ h ≤ (convert_dims w h).new_height ∧
    0 ≤ (convert_dims w h).h_padding ∧ 0 ≤ (convert_dims w h).v_padding := by
  by_cases hb : 9 * w < 16 * h
  · rw [convert_dims_narrow w h hb]
    simp only [fdiv_nine, fdiv_two]
    omega
  · rw [convert_dims_wide w h hb]
    simp only [fdiv_sixteen, fdiv_two]
    omega

/-- C2 (witness): the no-crop bounds at the 640×480 scenario. -/
theorem convert_dims_no_crop_witness :
    (0 : ℤ) < 640 ∧ (0 : ℤ) < 480 ∧
    (640 ≤ (convert_dims 640 480).new_width ∧
     480 ≤ (convert_dims 640 480).new_height ∧
     0 ≤ (convert_dims 640 480).h_padding ∧
     0 ≤ (convert_dims 640 480).v_padding) :=
  ⟨by decide, by decide, convert_dims_no_crop 640 480 (by decide) (by decide)⟩

/-- C9: for positive source dimensions the paste region is in bounds —
`0 ≤ v_padding`, `v_padding + height ≤ new_height`, `0 ≤ h_padding`,
`h_padding + width ≤ new_width` — and the numpy slice
`canvas[vp:vp+height, hp:hp+width]` has exactly the source's shape
(the clamped slice lengths equal `height` and `width`), so the per-frame
assignment cannot fail for any dimensions. -/
theorem paste_region_in_bounds (w h : ℤ) (hw : 0 < w) (hh : 0 < h) :
    0 ≤ (convert_dims w h).v_padding ∧
    (convert_dims w h).v_padding + h ≤ (convert_dims w h).new_height ∧
    0 ≤ (convert_dims w h).h_padding ∧
    (convert_dims w h).h_padding + w ≤ (convert_dims w h).new_width ∧
    min ((convert_dims w h).v_padding + h) (convert_dims w h).new_height -
      (convert_dims w h).v_padding = h ∧
    min ((convert_dims w h).h_padding + w) (convert_dims w h).new_width -
      (convert_dims w h).h_padding = w := by
  by_cases hb : 9 * w < 16 * h
  · rw [convert_dims_narrow w h hb]
    simp only [fdiv_nine, fdiv_two]
    omega
  · rw [convert_dims_wide w h hb]
    simp only [fdiv_sixteen, fdiv_two]
    omega

/-- C9 (witness): the in-bounds property at the 640×480 scenario. -/
theorem paste_region_in_bounds_witness :
    (0 : ℤ) < 640 ∧ (0 : ℤ) < 480 ∧
    (convert_dims 640 480).h_padding + 640 ≤ (convert_dims 640 480).new_width :=
  ⟨by decide, by decide,
    (paste_region_in_bounds 640 480 (by decide) (by decide)).2.2.2.1⟩

/-- C6: a source already exactly 16:9 (`9·width = 16·height`, positive) gets
zero padding on both axes and output dimensions equal to the input dimensions,
and the composited canvas agrees with the source frame at every in-range pixel
— re-running the compositor on an already-16:9 video is a content no-op. -/
theorem already_16_9_noop (w h : ℤ) (hh : 0 < h) (hr : 9 * w = 16 * h) :
    convert_dims w h = ⟨w, h, 0, 0⟩ ∧
    ∀ (f : Frame) (y x c : ℤ), 0 ≤ y → y < h → 0 ≤ x → x < w →
      composite 0 0 h w f y x c = f y x c := by
  constructor
  · rw [convert_dims_wide w h (by omega)]
    rw [hr]
    simp only [fdiv_sixteen, fdiv_two]
    have h16 : (16 * h : ℤ) / 16 = h := by omega
    rw [h16]
    simp
  · intro f y x c hy0 hyh hx0 hxw
    rw [composite]
    rw [if_pos ⟨hy0, by omega, hx0, by omega⟩]
    simp

/-- C6 (witness): the no-op property at a 1920×1080 source. -/
theorem already_16_9_noop_witness :
    (0 : ℤ) < 1080 ∧ (9 : ℤ) * 1920 = 16 * 1080 ∧
    convert_dims 1920 1080 = ⟨1920, 1080, 0, 0⟩ :=
  ⟨by decide, by decide, (already_16_9_noop 1920 1080 (by decide) (by decide)).1⟩

/-! ### Loop and compositing helper lemmas -/

/-- Inside the paste region the canvas reads the source frame. -/
lemma composite_in_region (vp hp h w : ℤ) (f : Frame) (dy dx c : ℤ)
    (h0 : 0 ≤ dy) (h1 : dy < h) (h2 : 0 ≤ dx) (h3 : dx < w) :
    composite vp hp h w f (vp + dy) (hp + dx) c = f dy dx c := by
  rw [composite]
  rw [if_pos ⟨by omega, by omega, by omega, by omega⟩]
  simp

/-- Outside the paste region the canvas is black. -/
lemma composite_outside (vp hp h w : ℤ) (f : Frame) (y x c : ℤ)
    (hout : ¬ (vp ≤ y ∧ y < vp + h ∧ hp ≤ x ∧ x < hp + w)) :
    composite vp hp h w f y x c = 0 := by
  rw [composite, if_neg hout]

/-- Whatever the loop writes is the composite of an initial segment of the
source frames, in order. -/
lemma convert_loop_take (vp hp h w fc : ℤ) (fs : List Frame) : ∀ p : ℕ,
    (convert_loop vp hp h w fc fs p).1 =
      (fs.take (convert_loop vp hp h w fc fs p).1.length).map
        (composite vp hp h w) := by
  induction fs with
  | nil => intro p; simp [convert_loop]
  | cons f fs ih =>
    intro p
    by_cases hc : (p + 1) % 100 = 0 ∧ fc = 0
    · simp [convert_loop, hc]
    · simp only [convert_loop, if_neg hc, List.length_cons, List.take_succ_cons,
        List.map_cons]
      exact congrArg _ (ih (p + 1))

/-- When the loop finishes without raising, it has written one frame per
source frame. -/
lemma convert_loop_ok_length (vp hp h w fc : ℤ) (fs : List Frame) : ∀ p : ℕ,
    (convert_loop vp hp h w fc fs p).2 = true →
    (convert_loop vp hp h w fc fs p).1.length = fs.length := by
  induction fs with
  | nil => intro p _; simp [convert_loop]
  | cons f fs ih =>
    intro p hok
    by_cases hc : (p + 1) % 100 = 0 ∧ fc = 0
    · simp [convert_loop, hc] at hok
    · simp only [convert_loop, if_neg hc] at hok ⊢
      simp [ih (p + 1) hok]

/-- With a nonzero reported frame count the progress print can never divide by
zero, so the loop always runs to the end of the stream. -/
lemma convert_loop_ok_of_ne (vp hp h w fc : ℤ) (hfc : fc ≠ 0)
    (fs : List Frame) : ∀ p : ℕ, (convert_loop vp hp h w fc fs p).2 = true := by
  induction fs with
  | nil => intro p; simp [convert_loop]
  | cons f fs ih =>
    intro p
    have hc : ¬ ((p + 1) % 100 = 0 ∧ fc = 0) := fun h => hfc h.2
    simp only [convert_loop, if_neg hc]
    exact ih (p + 1)

/-- Field-level description of a run on an opened source. -/
lemma convert_to_16_9_opened (src : Source) (hop : src.opened = true) :
    convert_to_16_9 src =
      { error_printed := false, sink_opened := true,
        sink_width := (convert_dims src.width src.height).new_width,
        sink_height := (convert_dims src.width src.height).new_height,
        sink_fps := src.fps,
        written := (convert_loop (convert_dims src.width src.height).v_padding
          (convert_dims src.width src.height).h_padding src.height src.width
          src.frame_count src.frames 0).1,
        cap_releases := if (convert_loop (convert_dims src.width src.height).v_padding
          (convert_dims src.width src.height).h_padding src.height src.width
          src.frame_count src.frames 0).2 then 1 else 0,
        out_releases := if (convert_loop (convert_dims src.width src.height).v_padding
          (convert_dims src.width src.height).h_padding src.height src.width
          src.frame_count src.frames 0).2 then 1 else 0,
        completed := (convert_loop (convert_dims src.width src.height).v_padding
          (convert_dims src.width src.height).h_padding src.height src.width
          src.frame_count src.frames 0).2 } := by
  rw [convert_to_16_9, if_neg (by simp [hop])]
  by_cases hok : (convert_loop (convert_dims src.width src.height).v_padding
      (convert_dims src.width src.height).h_padding src.height src.width
      src.frame_count src.frames 0).2 = true <;>
    simp [hok]

/-- C3: on an opened source, the frames written to the sink are exactly the
composites of an initial segment of the source frames, in the original order
(no reordering, dropping or duplication among the frames read); on a normally
completed run every source frame is composited and written; the sink is
declared with the computed canvas geometry at the source's frame rate; and
each canvas holds the source frame unchanged in the region starting at
`(v_padding, h_padding)` spanning `(height, width)`, and is zero elsewhere. -/
theorem frames_composited_in_order (src : Source) (d : ConvDims)
    (hop : src.opened = true) (hd : d = convert_dims src.width src.height) :
    (convert_to_16_9 src).written =
      (src.frames.take (convert_to_16_9 src).written.length).map
        (composite d.v_padding d.h_padding src.height src.width) ∧
    ((convert_to_16_9 src).completed = true →
      (convert_to_16_9 src).written =
        src.frames.map (composite d.v_padding d.h_padding src.height src.width)) ∧
    (convert_to_16_9 src).sink_width = d.new_width ∧
    (convert_to_16_9 src).sink_height = d.new_height ∧
    (convert_to_16_9 src).sink_fps = src.fps ∧
    (∀ (f : Frame) (dy dx c : ℤ),
      0 ≤ dy → dy < src.height → 0 ≤ dx → dx < src.width →
      composite d.v_padding d.h_padding src.height src.width f
        (d.v_padding + dy) (d.h_padding + dx) c = f dy dx c) ∧
    (∀ (f : Frame) (y x c : ℤ),
      ¬ (d.v_padding ≤ y ∧ y < d.v_padding + src.height ∧
         d.h_padding ≤ x ∧ x < d.h_padding + src.width) →
      composite d.v_padding d.h_padding src.height src.width f y x c = 0) := by
  subst hd
  rw [convert_to_16_9_opened src hop]
  have htake := convert_loop_take (convert_dims src.width src.height).v_padding
    (convert_dims src.width src.height).h_padding src.height
    src.width src.frame_count src.frames 0
  have hlen := convert_loop_ok_length (convert_dims src.width src.height).v_padding
    (convert_dims src.width src.height).h_padding src.height
    src.width src.frame_count src.frames 0
  refine ⟨htake, fun hok => ?_, rfl, rfl, rfl,
    fun f dy dx c a b e g => composite_in_region _ _ _ _ f dy dx c a b e g,
    fun f y x c hout => composite_outside _ _ _ _ f y x c hout⟩
  rw [htake, hlen hok, List.take_length]

/-- C3 (witness): the compositing contract instantiated on a concrete opened
source. -/
theorem frames_composited_in_order_witness :
    (Source.mk true 16 9 30 5 []).opened = true ∧
    (convert_to_16_9 (Source.mk true 16 9 30 5 [])).sink_fps = 30 :=
  ⟨rfl, (frames_composited_in_order (Source.mk true 16 9 30 5 [])
    (convert_dims 16 9) rfl rfl).2.2.2.2.1⟩

set_option maxRecDepth 100000 in
/-- C4 (code evaluated at the failing input): a source reporting
`frame_count = 0` but actually holding 150 frames.  The run does not complete
(a `ZeroDivisionError` is raised by the progress print at the 100th frame),
the sink receives only 100 of the 150 frames — the output is truncated and the
loop does not end at the end of the stream, contradicting the claim's "for
every value of the source's self-reported frame count". -/
theorem frame_count_zero_truncates :
    (convert_to_16_9
      (Source.mk true 16 9 30 0
        (List.replicate 150 (fun _ _ _ => 0)))).completed = false ∧
    (convert_to_16_9
      (Source.mk true 16 9 30 0
        (List.replicate 150 (fun _ _ _ => 0)))).written.length = 100 ∧
    (List.replicate 150 (fun _ _ _ => 0) : List Frame).length = 150 := by
  refine ⟨by decide, by decide, by decide⟩

set_option maxRecDepth 100000 in
/-- C5 (code evaluated at the failing input): with a reported count of 0 and
100 actual frames the progress computation `processed_frames / frame_count`
raises `ZeroDivisionError`, so the run does not complete; a merely mismatched
nonzero count (7 reported, 100 actual) is harmless and the run completes. -/
theorem progress_division_by_zero :
    (convert_to_16_9
      (Source.mk true 16 9 30 0
        (List.replicate 100 (fun _ _ _ => 0)))).completed = false ∧
    (convert_to_16_9
      (Source.mk true 16 9 30 7
        (List.replicate 100 (fun _ _ _ => 0)))).completed = true := by
  refine ⟨by decide, by decide⟩

/-- C7: when the source cannot be opened, the error is reported, no sink is
opened, no frame is written, and the function returns early. -/
theorem open_failure_no_output (src : Source) (hop : src.opened = false) :
    (convert_to_16_9 src).error_printed = true ∧
    (convert_to_16_9 src).sink_opened = false ∧
    (convert_to_16_9 src).written = [] ∧
    (convert_to_16_9 src).completed = false := by
  rw [convert_to_16_9, if_pos hop]
  exact ⟨rfl, rfl, rfl, rfl⟩

/-- C7 (witness): the open-failure contract on a concrete unopened source. -/
theorem open_failure_no_output_witness :
    (Source.mk false 640 480 30 10 []).opened = false ∧
    ((convert_to_16_9 (Source.mk false 640 480 30 10 [])).error_printed = true ∧
     (convert_to_16_9 (Source.mk false 640 480 30 10 [])).sink_opened = false ∧
     (convert_to_16_9 (Source.mk false 640 480 30 10 [])).written = [] ∧
     (convert_to_16_9 (Source.mk false 640 480 30 10 [])).completed = false) :=
  ⟨rfl, open_failure_no_output (Source.mk false 640 480 30 10 []) rfl⟩

/-- C8 (counterexample): on the open-failure path `cap.release()` is never
called (the function returns at line 18 before any release), so "the source is
released exactly once ... by the initial open-failure path" is false. -/
theorem open_failure_release_claim_false :
    (convert_to_16_9 (Source.mk false 640 480 30 10 [])).cap_releases = 0 ∧
    ¬ (convert_to_16_9 (Source.mk false 640 480 30 10 [])).cap_releases = 1 := by
  refine ⟨by decide, by decide⟩

/-- C8 (amended): on a normally completed run, source and sink are each
released exactly once; on any run that does not complete (the early
open-failure return, or an exception escaping the loop) neither release call
runs; and the sink is never opened when the source fails to open. -/
theorem release_discipline (src : Source) :
    ((convert_to_16_9 src).completed = true →
      (convert_to_16_9 src).cap_releases = 1 ∧
      (convert_to_16_9 src).out_releases = 1) ∧
    ((convert_to_16_9 src).completed = false →
      (convert_to_16_9 src).cap_releases = 0 ∧
      (convert_to_16_9 src).out_releases = 0) ∧
    (src.opened = false → (convert_to_16_9 src).sink_opened = false) := by
  by_cases hop : src.opened = false
  · rw [convert_to_16_9, if_pos hop]
    exact ⟨by simp, fun _ => ⟨rfl, rfl⟩, fun _ => rfl⟩
  · have hop' : src.opened = true := by revert hop; cases src.opened <;> simp
    rw [convert_to_16_9_opened src hop']
    by_cases hok : (convert_loop (convert_dims src.width src.height).v_padding
        (convert_dims src.width src.height).h_padding src.height src.width
        src.frame_count src.frames 0).2 = true
    · simp [hok, hop']
    · rw [Bool.not_eq_true] at hok
      simp [hok, hop']

/-- C8 (witness): the release discipline evaluated on a concrete run that
completes normally. -/
theorem release_discipline_witness :
    (convert_to_16_9 (Source.mk true 16 9 30 5 [])).completed = true ∧
    ((convert_to_16_9 (Source.mk true 16 9 30 5 [])).cap_releases = 1 ∧
     (convert_to_16_9 (Source.mk true 16 9 30 5 [])).out_releases = 1) :=
  ⟨by decide, (release_discipline (Source.mk true 16 9 30 5 [])).1 (by decide)⟩

/-- C10: `download_video` never propagates an exception: every call returns
either the troubleshooting outcome `("", guidance printed)` or the successful
path `os.path.join(effective output dir, title + ".mp4")` with no guidance
printed; and whenever every external step succeeds and the info dict carries a
duration, the successful path is returned. -/
theorem download_video_catches (env : DLEnv) (url : String)
    (op : Option String) :
    (download_video env url op = ⟨"", true⟩ ∨
      download_video env url op =
        ⟨pathJoin (effective_output env op)
          (env.title.getD "video" ++ ".mp4"), false⟩) ∧
    (env.makedirs_ok = true → env.extract_ok = true → env.download_ok = true →
      ∀ d : ℤ, env.duration = some d →
        download_video env url op =
          ⟨pathJoin (effective_output env op)
            (env.title.getD "video" ++ ".mp4"), false⟩) := by
  obtain ⟨cwd, mk, ex, ti, du, dl⟩ := env
  cases mk <;> cases ex <;> cases dl <;> cases du <;>
    simp [download_video, download_body, effective_output]

/-- C10 (witness): the success path on a concrete environment where every
external step succeeds. -/
theorem download_video_catches_witness :
    download_video (DLEnv.mk "wd" true true (some "clip") (some 125) true)
        "u" none =
      ⟨pathJoin
        (effective_output (DLEnv.mk "wd" true true (some "clip") (some 125) true)
          none)
        ((DLEnv.mk "wd" true true (some "clip") (some 125) true).title.getD
          "video" ++ ".mp4"), false⟩ :=
  (download_video_catches (DLEnv.mk "wd" true true (some "clip") (some 125) true)
    "u" none).2 rfl rfl rfl 125 rfl

end VideoTools
